import Mathlib

/-!
# spotify-bot: the monitor loop and the token lifecycle

A shallow embedding of `src/spotify.js` (the `state` record, `setState`,
`refreshAccessTokenIfNeeded`, `api`, `getPlayback`, `startPlayback`) and of
`src/server.js` (`monitorTick`, the `/kick` handler).

JavaScript values are typed: an absent, `null` or `undefined` field is `none`,
and truthiness is made explicit (`truthyStr`, `truthyFlag`).  Everything
outside the process (the clock, the token endpoint, the Web API, the file
system) answers through an `Env`, indexed by the number of events recorded so
far, and every observable action is appended to the `log` of the `World`.
Asynchronous functions become functions `World → Except String α × World`:
the first component is the settled promise (`error` = rejected), the second
the world after the call.
-/

namespace SpotifyBot

/-! ## Data model -/

/-- The record `state` of spotify.js (imported as `store` by server.js). -/
structure Store where
  access_token : Option String
  refresh_token : Option String
  token_expires_at : Option Int
  selected_playlist_id : Option String
  preferred_device_id : Option String
  bot_enabled : Option Bool
  user_interrupt : Option Bool
deriving DecidableEq, Repr

/-- The argument of `setState`: for each key, `none` when the patch does not
carry the key, `some v` when it does (`v` itself may be `undefined`). -/
structure Patch where
  access_token : Option (Option String) := none
  refresh_token : Option (Option String) := none
  token_expires_at : Option (Option Int) := none
  selected_playlist_id : Option (Option String) := none
  preferred_device_id : Option (Option String) := none
  bot_enabled : Option (Option Bool) := none
  user_interrupt : Option (Option Bool) := none
deriving DecidableEq, Repr

/-- The part of the body of `GET /me/player` that monitorTick reads:
`playback.is_playing` (as a truth value), `playback.context?.uri` and
`playback.device?.id`. -/
structure Playback where
  is_playing : Bool
  context_uri : Option String
  device_id : Option String
deriving DecidableEq, Repr

/-- The `data` of the token endpoint's answer. -/
structure TokenData where
  access_token : Option String
  expires_in : Option Int
deriving DecidableEq, Repr

/-- The `conf` object that `api` hands to axios: method, path under
`SPOTIFY_API`, the bearer of the `Authorization` header, the `device_id`
query parameter and the `context_uri` of the request body. -/
structure Conf where
  method : String
  url : String
  bearer : String
  device_id : Option String
  context_uri : Option String
deriving DecidableEq, Repr

/-- What the process does that can be observed from outside, in order. -/
inductive Event where
  | tokenRequest (refresh_token : String)
  | apiRequest (conf : Conf)
  | writeFile (content : Store)
  | startPlayback (context_uri : String) (device_id : String)
  | consoleLog (msg : String)
deriving DecidableEq, Repr

/-- The process state: the in-memory record and the events so far. -/
structure World where
  store : Store
  log : List Event
deriving DecidableEq, Repr

/-- The surroundings of the process.  Each answer is indexed by the number of
events recorded when it is asked for. -/
structure Env where
  PREFERRED_DEVICE_ID : Option String
  dateNow : Nat → Int
  tokenEndpoint : Nat → String → Except String TokenData
  axios : Nat → Conf → Except String (Option Playback)
  writeFileSync : Nat → Store → Except String Unit

/-- The response of an express handler: status code and whether the body is
the success object or an error object. -/
structure Response where
  status : Nat
  error : Option String
deriving DecidableEq, Repr

/-! ## JavaScript truthiness -/

/-- A string-valued field is truthy when present and non-empty. -/
def truthyStr (v : Option String) : Bool :=
  match v with
  | some s => s != ""
  | none => false

/-- A flag is truthy when it is `true`. -/
def truthyFlag (v : Option Bool) : Bool :=
  v == some true

/-- The string of a truthy field, `none` for a falsy one. -/
def truthyVal (v : Option String) : Option String :=
  match v with
  | some s => if s != "" then some s else none
  | none => none

/-- JavaScript `a || b` on string-valued fields. -/
def jsOr (a b : Option String) : Option String :=
  if truthyStr a then a else b

/-! ## JavaScript numbers -/

/-- The integers that a JavaScript number (an IEEE double) holds exactly:
those of magnitude at most 2^53. -/
def safeInteger (n : Int) : Bool :=
  decide (-9007199254740992 ≤ n) && decide (n ≤ 9007199254740992)

/-- The condition under which `now + (expires_in - 60) * 1000` is computed
without rounding by the double arithmetic of JavaScript: both operands and
every intermediate result are safe integers. -/
def exactExpiry (now expires_in : Int) : Bool :=
  safeInteger now && safeInteger expires_in && safeInteger (expires_in - 60)
    && safeInteger ((expires_in - 60) * 1000) && safeInteger (now + (expires_in - 60) * 1000)

/-! ## spotify.js -/

/-- The effect of `Object.assign(state, patch)`. -/
def Store.assign (s : Store) (p : Patch) : Store :=
  { access_token := p.access_token.getD s.access_token
    refresh_token := p.refresh_token.getD s.refresh_token
    token_expires_at := p.token_expires_at.getD s.token_expires_at
    selected_playlist_id := p.selected_playlist_id.getD s.selected_playlist_id
    preferred_device_id := p.preferred_device_id.getD s.preferred_device_id
    bot_enabled := p.bot_enabled.getD s.bot_enabled
    user_interrupt := p.user_interrupt.getD s.user_interrupt }

/-- Appends one event to the log. -/
def World.emit (w : World) (e : Event) : World :=
  { w with log := w.log ++ [e] }

/-- Function `setState(patch)`: `Object.assign(state, patch)` and then
`saveState(state)`, whose `fs.writeFileSync` may throw. -/
def setState (env : Env) (patch : Patch) (w : World) : Except String Unit × World :=
  let s := w.store.assign patch
  (env.writeFileSync w.log.length s, { store := s, log := w.log ++ [Event.writeFile s] })

/-- Function `refreshAccessTokenIfNeeded()`.  The new expiry is written with
integer arithmetic; this is the value that line 93 computes in doubles whenever
`exactExpiry` holds, and the theorems that speak of the value assume it. -/
def refreshAccessTokenIfNeeded (env : Env) (w : World) : Except String Unit × World :=
  match truthyVal w.store.refresh_token with
  | none => (.ok (), w)
  | some rt =>
    if truthyStr w.store.access_token
        && decide (env.dateNow w.log.length < w.store.token_expires_at.getD 0) then
      (.ok (), w)
    else
      let w1 := w.emit (Event.tokenRequest rt)
      match env.tokenEndpoint w.log.length rt with
      | .error e => (.error e, w1)
      | .ok data =>
        setState env
          { access_token := some data.access_token
            token_expires_at :=
              some (data.expires_in.map fun s => env.dateNow w1.log.length + (s - 60) * 1000) }
          w1

/-- Function `api(method, url, opts)`, with `opts.deviceId` and the
`context_uri` of `opts.data`. -/
def api (env : Env) (method url : String) (deviceId context_uri : Option String)
    (w : World) : Except String (Option Playback) × World :=
  match refreshAccessTokenIfNeeded env w with
  | (.error e, w1) => (.error e, w1)
  | (.ok (), w1) =>
    match truthyVal w1.store.access_token with
    | none => (.error "Not authenticated with Spotify", w1)
    | some token =>
      let conf : Conf :=
        { method := method, url := url, bearer := token
          device_id := truthyVal deviceId, context_uri := context_uri }
      (env.axios w1.log.length conf, w1.emit (Event.apiRequest conf))

/-- Function `getPlayback()`. -/
def getPlayback (env : Env) (w : World) : Except String (Option Playback) × World :=
  api env "get" "/me/player" none none w

/-- Function `startPlayback(args)` as server.js calls it, with `context_uri`
and `device_id`.  The invocation itself is recorded. -/
def startPlayback (env : Env) (context_uri device_id : String) (w : World) :
    Except String (Option Playback) × World :=
  api env "put" "/me/player/play" (some device_id) (some context_uri)
    (w.emit (Event.startPlayback context_uri device_id))

/-! ## server.js -/

/-- The call `startPlayback(...).catch(e => console.log(...))` of monitorTick. -/
def startPlaybackLogged (env : Env) (context_uri device_id : String) (w : World) :
    Except String Unit × World :=
  match startPlayback env context_uri device_id w with
  | (.ok _, w1) => (.ok (), w1)
  | (.error e, w1) => (.ok (), w1.emit (Event.consoleLog ("[monitor] startPlayback error: " ++ e)))

/-- The `try` block of `monitorTick`. -/
def monitorTickBody (env : Env) (w : World) : Except String Unit × World :=
  if !truthyFlag w.store.bot_enabled then (.ok (), w) else
  match truthyVal (jsOr w.store.preferred_device_id env.PREFERRED_DEVICE_ID),
      truthyVal w.store.selected_playlist_id with
  | some deviceId, some playlistId =>
    let fetched := getPlayback env w
    let w1 := fetched.2
    let playback := match fetched.1 with
      | .ok body => body
      | .error _ => none
    match playback with
    | none => (.ok (), w1)
    | some pb =>
      let target := "spotify:playlist:" ++ playlistId
      let differentContext := pb.context_uri != some target
      if !truthyFlag w1.store.user_interrupt && pb.is_playing && differentContext then
        match setState env { user_interrupt := some (some true) } w1 with
        | (.error e, w2) => (.error e, w2)
        | (.ok (), w2) =>
          (.ok (), w2.emit
            (Event.consoleLog "[monitor] Detected manual user playback; bot paused itself."))
      else if truthyFlag w1.store.user_interrupt then
        if !pb.is_playing then
          let w2 := w1.emit (Event.consoleLog "[monitor] User idle; resuming bot playback.")
          match setState env { user_interrupt := some (some false) } w2 with
          | (.error e, w3) => (.error e, w3)
          | (.ok (), w3) => startPlaybackLogged env target deviceId w3
        else (.ok (), w1)
      else
        let isTargetDeviceActive := pb.device_id == some deviceId
        let isCorrectContext := pb.context_uri == some target
        if !pb.is_playing || !isTargetDeviceActive || !isCorrectContext then
          startPlaybackLogged env target deviceId
            (w1.emit
              (Event.consoleLog "[monitor] Reasserting playback on target device & playlist..."))
        else (.ok (), w1)
  | _, _ => (.ok (), w)

/-- Function `monitorTick()`: the `try` block and its `catch`. -/
def monitorTick (env : Env) (w : World) : Except String Unit × World :=
  match monitorTickBody env w with
  | (.ok (), w1) => (.ok (), w1)
  | (.error e, w1) => (.ok (), w1.emit (Event.consoleLog ("[monitor] Loop error: " ++ e)))

/-- The handler of `GET /kick`. -/
def kick (env : Env) (w : World) : Response × World :=
  match truthyVal w.store.selected_playlist_id, truthyVal w.store.preferred_device_id with
  | some playlistId, some deviceId =>
    match startPlayback env ("spotify:playlist:" ++ playlistId) deviceId w with
    | (.ok _, w1) => ({ status := 200, error := none }, w1)
    | (.error e, w1) => ({ status := 500, error := some e }, w1)
  | _, _ => ({ status := 400, error := some "Select a playlist and device first." }, w)

/-! ## Observations -/

/-- The events a call added to the log of `w`, given the world it ended in. -/
def issued (w after : World) : List Event :=
  after.log.drop w.log.length

/-- The arguments of the `startPlayback` invocations among some events. -/
def startCalls (es : List Event) : List (String × String) :=
  es.filterMap fun e =>
    match e with
    | .startPlayback c d => some (c, d)
    | _ => none

/-- The refresh tokens of the token-endpoint requests among some events. -/
def tokenRequests (es : List Event) : List String :=
  es.filterMap fun e =>
    match e with
    | .tokenRequest rt => some rt
    | _ => none

/-- The requests sent to the Web API among some events. -/
def apiRequests (es : List Event) : List Conf :=
  es.filterMap fun e =>
    match e with
    | .apiRequest c => some c
    | _ => none

/-- The events between `w` and `w1` hold exactly the startPlayback invocations `cs`. -/
def Calls (w w1 : World) (cs : List (String × String)) : Prop :=
  ∃ es, w1.log = w.log ++ es ∧ startCalls es = cs

/-- The fields of the record that no call through `api` writes. -/
def SameSelections (w w1 : World) : Prop :=
  w1.store.refresh_token = w.store.refresh_token ∧
  w1.store.selected_playlist_id = w.store.selected_playlist_id ∧
  w1.store.preferred_device_id = w.store.preferred_device_id ∧
  w1.store.bot_enabled = w.store.bot_enabled ∧
  w1.store.user_interrupt = w.store.user_interrupt

/-! ## Sample data -/

/-- A fully populated record: authenticated, playlist `P1` and device `D1`
chosen, bot enabled, no interrupt, token valid until 1000. -/
def sampleStore : Store :=
  { access_token := some "A", refresh_token := some "R", token_expires_at := some 1000
    selected_playlist_id := some "P1", preferred_device_id := some "D1"
    bot_enabled := some true, user_interrupt := some false }

/-- The sample record with the bot switched off. -/
def disabledStore : Store :=
  { sampleStore with bot_enabled := some false }

/-- The sample record without any token. -/
def unauthenticatedStore : Store :=
  { sampleStore with access_token := none, refresh_token := none }

/-- The sample record with the interrupt flag set. -/
def interruptedStore : Store :=
  { sampleStore with user_interrupt := some true }

/-- A record with an access token that expired at 100 and no refresh token. -/
def staleStore : Store :=
  { sampleStore with refresh_token := none, token_expires_at := some 100 }

/-- A record with an access token that expired at 100 and a refresh token. -/
def expiredStore : Store :=
  { sampleStore with token_expires_at := some 100 }

/-- An environment at time `now` whose `GET` requests answer `pb`, whose other
requests answer `play`, and whose file writes answer `write`. -/
def sampleEnv (now : Int) (pb : Option Playback) (play : Except String (Option Playback))
    (write : Except String Unit) : Env :=
  { PREFERRED_DEVICE_ID := none
    dateNow := fun _ => now
    tokenEndpoint := fun _ _ => .ok { access_token := some "T2", expires_in := some 3600 }
    axios := fun _ conf => if conf.method == "get" then .ok pb else play
    writeFileSync := fun _ _ => write }

/-- The sample record without a chosen device. -/
def fallbackStore : Store :=
  { sampleStore with preferred_device_id := none }

/-- The sample record without a chosen device and with the interrupt flag set. -/
def interruptedFallbackStore : Store :=
  { interruptedStore with preferred_device_id := none }

/-- The sample environment at time 0 with `PREFERRED_DEVICE_ID=D9` configured. -/
def fallbackEnv (pb : Option Playback) : Env :=
  { sampleEnv 0 pb (.ok none) (.ok ()) with PREFERRED_DEVICE_ID := some "D9" }

/-- An environment at time 0 whose file system accepts a record only when its
interrupt flag is cleared. -/
def pickyEnv (pb : Option Playback) : Env :=
  { sampleEnv 0 pb (.ok none) (.ok ()) with
    writeFileSync := fun _ s =>
      if s.user_interrupt == some false then .ok () else .error "EACCES" }

/-- Live status: nothing is playing. -/
def idle : Playback :=
  { is_playing := false, context_uri := none, device_id := none }

/-- Live status: another playlist is playing on another device. -/
def elsewhere : Playback :=
  { is_playing := true, context_uri := some "spotify:playlist:OTHER", device_id := some "D2" }

/-- Live status: another playlist is loaded on another device, paused. -/
def pausedElsewhere : Playback :=
  { is_playing := false, context_uri := some "spotify:playlist:OTHER", device_id := some "D2" }

/-- Live status: the target playlist is playing on another device. -/
def onOtherDevice : Playback :=
  { is_playing := true, context_uri := some "spotify:playlist:P1", device_id := some "D2" }

/-- Live status: the target playlist is playing on the configured fallback device. -/
def onFallbackDevice : Playback :=
  { is_playing := true, context_uri := some "spotify:playlist:P1", device_id := some "D9" }

/-- Live status: the target playlist is playing on the target device. -/
def onTarget : Playback :=
  { is_playing := true, context_uri := some "spotify:playlist:P1", device_id := some "D1" }

/-! ## Frame lemmas -/

theorem Calls.silent (w : World) : Calls w w [] :=
  ⟨[], by simp, rfl⟩

theorem Calls.append {a b c : World} {x y : List (String × String)}
    (h1 : Calls a b x) (h2 : Calls b c y) : Calls a c (x ++ y) := by
  obtain ⟨es1, l1, s1⟩ := h1
  obtain ⟨es2, l2, s2⟩ := h2
  refine ⟨es1 ++ es2, by rw [l2, l1, List.append_assoc], ?_⟩
  simp only [startCalls, List.filterMap_append] at s1 s2 ⊢
  rw [s1, s2]

theorem Calls.single (w : World) (e : Event) : Calls w (w.emit e) (startCalls [e]) :=
  ⟨[e], rfl, rfl⟩

theorem Calls.quiet {w w1 : World} {cs : List (String × String)} (h : Calls w w1 cs)
    (e : Event) (he : startCalls [e] = []) : Calls w (w1.emit e) cs := by
  have h2 := h.append (Calls.single w1 e)
  rwa [he, List.append_nil] at h2

theorem Calls.startCalls_issued {w w1 : World} {cs : List (String × String)} (h : Calls w w1 cs) :
    startCalls (issued w w1) = cs := by
  obtain ⟨es, l, s⟩ := h
  simp [SpotifyBot.issued, l, s]

theorem SameSelections.unchanged (w : World) : SameSelections w w :=
  ⟨rfl, rfl, rfl, rfl, rfl⟩

theorem SameSelections.chain {a b c : World} (h1 : SameSelections a b)
    (h2 : SameSelections b c) : SameSelections a c :=
  ⟨h2.1.trans h1.1, h2.2.1.trans h1.2.1, h2.2.2.1.trans h1.2.2.1,
    h2.2.2.2.1.trans h1.2.2.2.1, h2.2.2.2.2.trans h1.2.2.2.2⟩

theorem setState_store (env : Env) (p : Patch) (w : World) :
    (setState env p w).2.store = w.store.assign p := rfl

theorem setState_calls (env : Env) (p : Patch) (w : World) :
    Calls w (setState env p w).2 [] :=
  ⟨[Event.writeFile (w.store.assign p)], rfl, rfl⟩

theorem refresh_frame (env : Env) (w : World) :
    SameSelections w (refreshAccessTokenIfNeeded env w).2 ∧
      Calls w (refreshAccessTokenIfNeeded env w).2 [] := by
  unfold refreshAccessTokenIfNeeded
  split
  · exact ⟨.unchanged w, .silent w⟩
  · split
    · exact ⟨.unchanged w, .silent w⟩
    · split
      · exact ⟨⟨rfl, rfl, rfl, rfl, rfl⟩, Calls.single w _⟩
      · exact ⟨⟨rfl, rfl, rfl, rfl, rfl⟩, (Calls.single w _).append (setState_calls env _ _)⟩

theorem api_frame (env : Env) (m u : String) (d c : Option String) (w : World) :
    SameSelections w (api env m u d c w).2 ∧ Calls w (api env m u d c w).2 [] := by
  have h := refresh_frame env w
  unfold api
  split
  · rename_i e w1 heq
    rw [heq] at h; exact h
  · rename_i w1 heq
    rw [heq] at h
    split
    · exact h
    · exact ⟨h.1.chain ⟨rfl, rfl, rfl, rfl, rfl⟩, h.2.append (Calls.single w1 _)⟩

theorem startPlaybackLogged_spec (env : Env) (c d : String) (w : World) :
    (startPlaybackLogged env c d w).1 = .ok () ∧
    SameSelections w (startPlaybackLogged env c d w).2 ∧
    Calls w (startPlaybackLogged env c d w).2 [(c, d)] := by
  have h := api_frame env "put" "/me/player/play" (some d) (some c)
    (w.emit (Event.startPlayback c d))
  have h0 : SameSelections w (w.emit (Event.startPlayback c d)) := ⟨rfl, rfl, rfl, rfl, rfl⟩
  have c0 := Calls.single w (Event.startPlayback c d)
  unfold startPlaybackLogged startPlayback
  split
  · rename_i heq
    rw [heq] at h
    exact ⟨rfl, h0.chain h.1, c0.append h.2⟩
  · rename_i heq
    rw [heq] at h
    exact ⟨rfl, (h0.chain h.1).chain ⟨rfl, rfl, rfl, rfl, rfl⟩,
      (c0.append h.2).append (Calls.single _ _)⟩

theorem tick_store (env : Env) (w : World) :
    (monitorTick env w).2.store = (monitorTickBody env w).2.store := by
  unfold monitorTick
  split <;> rename_i heq <;> rw [heq]
  rfl

theorem tick_calls (env : Env) (w : World) (cs : List (String × String))
    (h : Calls w (monitorTickBody env w).2 cs) : Calls w (monitorTick env w).2 cs := by
  unfold monitorTick
  split <;> rename_i heq <;> rw [heq] at h
  · exact h
  · exact Calls.quiet h _ rfl

theorem tick_ok (env : Env) (w : World) : (monitorTick env w).1 = .ok () := by
  unfold monitorTick
  split <;> rfl

theorem tick_disabled (env : Env) (w : World) (h : w.store.bot_enabled ≠ some true) :
    monitorTick env w = (.ok (), w) := by
  have : truthyFlag w.store.bot_enabled = false := by simpa [truthyFlag] using h
  simp [monitorTick, monitorTickBody, this]

theorem tick_untargeted (env : Env) (w : World)
    (h : truthyVal (jsOr w.store.preferred_device_id env.PREFERRED_DEVICE_ID) = none ∨
      truthyVal w.store.selected_playlist_id = none) :
    monitorTick env w = (.ok (), w) := by
  have hbody : monitorTickBody env w = (.ok (), w) := by
    unfold monitorTickBody
    split
    · rfl
    · rcases h with h | h <;> simp [h]
  simp [monitorTick, hbody]

theorem body_unfetched (env : Env) (w : World)
    (h : ∀ pb, (getPlayback env w).1 ≠ .ok (some pb)) :
    monitorTickBody env w = (.ok (), w) ∨
      monitorTickBody env w = (.ok (), (getPlayback env w).2) := by
  unfold monitorTickBody
  split
  · exact .inl rfl
  · split
    · right
      rcases hr : (getPlayback env w).1 with e | body
      · simp [hr]
      · cases body with
        | none => simp [hr]
        | some pb => exact absurd hr (h pb)
    · exact .inl rfl

theorem body_detect (env : Env) (w : World) (dev pl : String) (pb : Playback)
    (hb : w.store.bot_enabled = some true)
    (hd : truthyVal (jsOr w.store.preferred_device_id env.PREFERRED_DEVICE_ID) = some dev)
    (hl : truthyVal w.store.selected_playlist_id = some pl)
    (hf : (getPlayback env w).1 = .ok (some pb))
    (hu : w.store.user_interrupt ≠ some true) (hp : pb.is_playing = true)
    (hx : pb.context_uri ≠ some ("spotify:playlist:" ++ pl)) :
    (monitorTickBody env w).2.store =
        (getPlayback env w).2.store.assign { user_interrupt := some (some true) } ∧
      Calls w (monitorTickBody env w).2 [] := by
  obtain ⟨fs, fc⟩ := api_frame env "get" "/me/player" none none w
  change SameSelections w (getPlayback env w).2 at fs
  change Calls w (getPlayback env w).2 [] at fc
  have hu1 : ((getPlayback env w).2.store.user_interrupt == some true) = false := by
    rw [fs.2.2.2.2]; simpa using hu
  have hx1 : (pb.context_uri != some ("spotify:playlist:" ++ pl)) = true := by
    simpa using hx
  have hs := setState_store env { user_interrupt := some (some true) } (getPlayback env w).2
  have hk := fc.append (setState_calls env { user_interrupt := some (some true) }
    (getPlayback env w).2)
  simp only [monitorTickBody, hb, hd, hl, hf, truthyFlag, hu1, hp, hx1]
  simp only [beq_self_eq_true, Bool.not_true, Bool.false_eq_true, if_false, Bool.not_false,
    Bool.and_self, if_true]
  split <;> rename_i heq <;> rw [heq] at hs hk
  · exact ⟨hs, hk⟩
  · exact ⟨hs, hk.quiet _ rfl⟩

theorem getPlayback_frame (env : Env) (w : World) :
    SameSelections w (getPlayback env w).2 ∧ Calls w (getPlayback env w).2 [] :=
  api_frame env "get" "/me/player" none none w

theorem body_wait (env : Env) (w : World) (dev pl : String) (pb : Playback)
    (hb : w.store.bot_enabled = some true)
    (hd : truthyVal (jsOr w.store.preferred_device_id env.PREFERRED_DEVICE_ID) = some dev)
    (hl : truthyVal w.store.selected_playlist_id = some pl)
    (hf : (getPlayback env w).1 = .ok (some pb))
    (hu : w.store.user_interrupt = some true) (hp : pb.is_playing = true) :
    monitorTickBody env w = (.ok (), (getPlayback env w).2) := by
  have hu1 : (getPlayback env w).2.store.user_interrupt = some true := by
    rw [(getPlayback_frame env w).1.2.2.2.2]; exact hu
  simp [monitorTickBody, hb, hd, hl, hf, truthyFlag, hu1, hp]

theorem body_resume (env : Env) (w : World) (dev pl : String) (pb : Playback)
    (hb : w.store.bot_enabled = some true)
    (hd : truthyVal (jsOr w.store.preferred_device_id env.PREFERRED_DEVICE_ID) = some dev)
    (hl : truthyVal w.store.selected_playlist_id = some pl)
    (hf : (getPlayback env w).1 = .ok (some pb))
    (hu : w.store.user_interrupt = some true) (hp : pb.is_playing = false) :
    (monitorTickBody env w).2.store.user_interrupt = some false ∧
      (monitorTickBody env w).2.store.bot_enabled = some true ∧
      (env.writeFileSync ((getPlayback env w).2.log.length + 1)
          ((getPlayback env w).2.store.assign { user_interrupt := some (some false) }) = .ok () →
        Calls w (monitorTickBody env w).2 [("spotify:playlist:" ++ pl, dev)]) ∧
      ((∃ e, env.writeFileSync ((getPlayback env w).2.log.length + 1)
          ((getPlayback env w).2.store.assign { user_interrupt := some (some false) })
            = .error e) →
        Calls w (monitorTickBody env w).2 []) := by
  obtain ⟨fs, fc⟩ := getPlayback_frame env w
  have hu1 : (getPlayback env w).2.store.user_interrupt = some true := by
    rw [fs.2.2.2.2]; exact hu
  have hb1 : (getPlayback env w).2.store.bot_enabled = some true := by
    rw [fs.2.2.2.1]; exact hb
  have hk := (fc.quiet (Event.consoleLog "[monitor] User idle; resuming bot playback.") rfl).append
    (setState_calls env { user_interrupt := some (some false) } _)
  simp only [monitorTickBody, hb, hd, hl, hf, truthyFlag, hu1, hp]
  simp only [beq_self_eq_true, Bool.not_true, Bool.false_eq_true, if_false, Bool.not_false,
    Bool.and_self, if_true, Bool.false_and, Bool.and_false]
  rcases hr : setState env { user_interrupt := some (some false) }
      ((getPlayback env w).2.emit
        (Event.consoleLog "[monitor] User idle; resuming bot playback.")) with ⟨r, w3⟩
  have hst : w3.store = (getPlayback env w).2.store.assign { user_interrupt := some (some false) } := by
    have := congrArg (fun x => x.2.store) hr
    simpa [setState, World.emit] using this.symm
  have hres : r = env.writeFileSync ((getPlayback env w).2.log.length + 1)
      ((getPlayback env w).2.store.assign { user_interrupt := some (some false) }) := by
    have := congrArg Prod.fst hr
    simpa [setState, World.emit] using this.symm
  rw [hr] at hk
  have hu3 : w3.store.user_interrupt = some false := by rw [hst]; rfl
  have hb3 : w3.store.bot_enabled = some true := by rw [hst]; exact hb1
  cases r with
  | error e =>
    refine ⟨hu3, hb3, ?_, fun _ => hk⟩
    intro hw
    rw [hw] at hres
    cases hres
  | ok u =>
    obtain ⟨_, hs, hc⟩ := startPlaybackLogged_spec env ("spotify:playlist:" ++ pl) dev w3
    refine ⟨hs.2.2.2.2.trans hu3, hs.2.2.2.1.trans hb3, fun _ => ?_, ?_⟩
    · simpa using hk.append hc
    · intro hw
      obtain ⟨e, he⟩ := hw
      rw [he] at hres
      cases hres

theorem body_correct (env : Env) (w : World) (dev pl : String) (pb : Playback)
    (hb : w.store.bot_enabled = some true)
    (hd : truthyVal (jsOr w.store.preferred_device_id env.PREFERRED_DEVICE_ID) = some dev)
    (hl : truthyVal w.store.selected_playlist_id = some pl)
    (hf : (getPlayback env w).1 = .ok (some pb))
    (hu : w.store.user_interrupt ≠ some true)
    (hc : ¬ (pb.is_playing = true ∧ pb.context_uri ≠ some ("spotify:playlist:" ++ pl)))
    (hn : pb.is_playing = false ∨ pb.device_id ≠ some dev) :
    monitorTickBody env w =
      startPlaybackLogged env ("spotify:playlist:" ++ pl) dev
        ((getPlayback env w).2.emit
          (Event.consoleLog "[monitor] Reasserting playback on target device & playlist...")) := by
  have hu1 : ((getPlayback env w).2.store.user_interrupt == some true) = false := by
    rw [(getPlayback_frame env w).1.2.2.2.2]; simpa using hu
  simp only [monitorTickBody, hb, hd, hl, hf, truthyFlag, hu1]
  rcases pb with ⟨playing, ctx, dv⟩
  cases playing <;> simp_all

theorem body_fine (env : Env) (w : World) (dev pl : String) (pb : Playback)
    (hb : w.store.bot_enabled = some true)
    (hd : truthyVal (jsOr w.store.preferred_device_id env.PREFERRED_DEVICE_ID) = some dev)
    (hl : truthyVal w.store.selected_playlist_id = some pl)
    (hf : (getPlayback env w).1 = .ok (some pb))
    (hu : w.store.user_interrupt ≠ some true)
    (hp : pb.is_playing = true) (hx : pb.context_uri = some ("spotify:playlist:" ++ pl))
    (hv : pb.device_id = some dev) :
    monitorTickBody env w = (.ok (), (getPlayback env w).2) := by
  have hu1 : ((getPlayback env w).2.store.user_interrupt == some true) = false := by
    rw [(getPlayback_frame env w).1.2.2.2.2]; simpa using hu
  simp [monitorTickBody, hb, hd, hl, hf, truthyFlag, hu1, hp, hx, hv]

theorem tick_unfetched (env : Env) (w : World)
    (h : ∀ pb, (getPlayback env w).1 ≠ .ok (some pb)) :
    SameSelections w (monitorTick env w).2 ∧ Calls w (monitorTick env w).2 [] := by
  have hs := tick_store env w
  have hc := tick_calls env w []
  rcases body_unfetched env w h with hbody | hbody <;> rw [hbody] at hs hc
  · exact ⟨by unfold SameSelections; rw [hs]; exact SameSelections.unchanged w, hc (.silent w)⟩
  · obtain ⟨fs, fc⟩ := getPlayback_frame env w
    exact ⟨by unfold SameSelections; rw [hs]; exact fs, hc fc⟩

theorem tick_flags (env : Env) (w : World) :
    (monitorTick env w).2.store.bot_enabled = w.store.bot_enabled ∧
    (monitorTick env w).2.store.user_interrupt =
      (match truthyFlag w.store.bot_enabled,
          truthyVal (jsOr w.store.preferred_device_id env.PREFERRED_DEVICE_ID),
          truthyVal w.store.selected_playlist_id, (getPlayback env w).1 with
        | true, some _, some pl, .ok (some pb) =>
          if !truthyFlag w.store.user_interrupt && pb.is_playing
              && pb.context_uri != some ("spotify:playlist:" ++ pl) then some true
          else if truthyFlag w.store.user_interrupt && !pb.is_playing then some false
          else w.store.user_interrupt
        | _, _, _, _ => w.store.user_interrupt) := by
  by_cases hb : w.store.bot_enabled = some true
  swap
  · have hb2 : truthyFlag w.store.bot_enabled = false := by simpa [truthyFlag] using hb
    rw [tick_disabled env w hb, hb2]
    exact ⟨rfl, rfl⟩
  have hb2 : truthyFlag w.store.bot_enabled = true := by simp [truthyFlag, hb]
  rw [hb2]
  cases hd : truthyVal (jsOr w.store.preferred_device_id env.PREFERRED_DEVICE_ID) with
  | none => rw [tick_untargeted env w (.inl hd)]; exact ⟨rfl, rfl⟩
  | some dev =>
  cases hl : truthyVal w.store.selected_playlist_id with
  | none => rw [tick_untargeted env w (.inr hl)]; exact ⟨rfl, rfl⟩
  | some pl =>
  obtain ⟨fs, -⟩ := getPlayback_frame env w
  rcases hf : (getPlayback env w).1 with e | body
  · have h := (tick_unfetched env w (by rw [hf]; intro pb; simp)).1
    exact ⟨h.2.2.2.1, h.2.2.2.2⟩
  cases body with
  | none =>
    have h := (tick_unfetched env w (by rw [hf]; intro pb; simp)).1
    exact ⟨h.2.2.2.1, h.2.2.2.2⟩
  | some pb =>
  rw [tick_store]
  by_cases hu : w.store.user_interrupt = some true
  · cases hp : pb.is_playing with
    | true =>
      rw [body_wait env w dev pl pb hb hd hl hf hu hp]
      refine ⟨fs.2.2.2.1, ?_⟩
      simp [truthyFlag, hu, hp, fs.2.2.2.2]
    | false =>
      obtain ⟨h1, h2, -, -⟩ := body_resume env w dev pl pb hb hd hl hf hu hp
      refine ⟨h2.trans hb.symm, ?_⟩
      simp [truthyFlag, hu, hp, h1]
  · have hu2 : truthyFlag w.store.user_interrupt = false := by simpa [truthyFlag] using hu
    by_cases hc : pb.is_playing = true ∧ pb.context_uri ≠ some ("spotify:playlist:" ++ pl)
    · obtain ⟨h1, -⟩ := body_detect env w dev pl pb hb hd hl hf hu hc.1 hc.2
      rw [h1]
      refine ⟨fs.2.2.2.1, ?_⟩
      simp [hu2, hc.1, hc.2, Store.assign]
    · have hcond : (pb.is_playing && pb.context_uri != some ("spotify:playlist:" ++ pl))
          = false := by
        rcases pb with ⟨playing, ctx, dv⟩
        cases playing <;> simp_all
      simp only [hu2, Bool.not_false, Bool.true_and, hcond, Bool.false_and, Bool.false_eq_true,
        if_false]
      by_cases hn : pb.is_playing = false ∨ pb.device_id ≠ some dev
      · rw [body_correct env w dev pl pb hb hd hl hf hu hc hn]
        obtain ⟨-, hs, -⟩ := startPlaybackLogged_spec env ("spotify:playlist:" ++ pl) dev
          ((getPlayback env w).2.emit
            (Event.consoleLog "[monitor] Reasserting playback on target device & playlist..."))
        exact ⟨hs.2.2.2.1.trans fs.2.2.2.1, hs.2.2.2.2.trans fs.2.2.2.2⟩
      · have hp : pb.is_playing = true := by
          cases h : pb.is_playing
          · exact absurd (.inl h) hn
          · rfl
        have hv : pb.device_id = some dev := by
          by_contra h
          exact hn (.inr h)
        have hx : pb.context_uri = some ("spotify:playlist:" ++ pl) := by
          by_contra h
          exact hc ⟨hp, h⟩
        rw [body_fine env w dev pl pb hb hd hl hf hu hp hx hv]
        exact ⟨fs.2.2.2.1, fs.2.2.2.2⟩

theorem tick_correct_calls (env : Env) (w : World) (dev pl : String) (pb : Playback)
    (hb : w.store.bot_enabled = some true)
    (hd : truthyVal (jsOr w.store.preferred_device_id env.PREFERRED_DEVICE_ID) = some dev)
    (hl : truthyVal w.store.selected_playlist_id = some pl)
    (hf : (getPlayback env w).1 = .ok (some pb))
    (hu : w.store.user_interrupt ≠ some true)
    (hc : ¬ (pb.is_playing = true ∧ pb.context_uri ≠ some ("spotify:playlist:" ++ pl)))
    (hn : pb.is_playing = false ∨ pb.device_id ≠ some dev) :
    Calls w (monitorTick env w).2 [("spotify:playlist:" ++ pl, dev)] := by
  obtain ⟨-, fc⟩ := getPlayback_frame env w
  have hbody := body_correct env w dev pl pb hb hd hl hf hu hc hn
  obtain ⟨-, -, hk⟩ := startPlaybackLogged_spec env ("spotify:playlist:" ++ pl) dev
    ((getPlayback env w).2.emit
      (Event.consoleLog "[monitor] Reasserting playback on target device & playlist..."))
  rw [← hbody] at hk
  have h := (fc.quiet (Event.consoleLog
    "[monitor] Reasserting playback on target device & playlist...") rfl).append hk
  exact tick_calls env w _ h

theorem body_resume_selections (env : Env) (w : World) (dev pl : String) (pb : Playback)
    (hb : w.store.bot_enabled = some true)
    (hd : truthyVal (jsOr w.store.preferred_device_id env.PREFERRED_DEVICE_ID) = some dev)
    (hl : truthyVal w.store.selected_playlist_id = some pl)
    (hf : (getPlayback env w).1 = .ok (some pb))
    (hu : w.store.user_interrupt = some true) (hp : pb.is_playing = false) :
    (monitorTickBody env w).2.store.selected_playlist_id = w.store.selected_playlist_id ∧
      (monitorTickBody env w).2.store.preferred_device_id = w.store.preferred_device_id := by
  obtain ⟨fs, -⟩ := getPlayback_frame env w
  have hu1 : (getPlayback env w).2.store.user_interrupt = some true := by
    rw [fs.2.2.2.2]; exact hu
  simp only [monitorTickBody, hb, hd, hl, hf, truthyFlag, hu1, hp]
  simp only [beq_self_eq_true, Bool.not_true, Bool.false_eq_true, if_false, Bool.not_false,
    Bool.and_self, if_true, Bool.false_and, Bool.and_false]
  rcases hr : setState env { user_interrupt := some (some false) }
      ((getPlayback env w).2.emit
        (Event.consoleLog "[monitor] User idle; resuming bot playback.")) with ⟨r, w3⟩
  have hst : w3.store = (getPlayback env w).2.store.assign { user_interrupt := some (some false) } := by
    have := congrArg (fun x => x.2.store) hr
    simpa [setState, World.emit] using this.symm
  have hp3 : w3.store.selected_playlist_id = w.store.selected_playlist_id := by
    rw [hst]; exact fs.2.1
  have hd3 : w3.store.preferred_device_id = w.store.preferred_device_id := by
    rw [hst]; exact fs.2.2.1
  cases r with
  | error e => exact ⟨hp3, hd3⟩
  | ok u =>
    obtain ⟨_, hs, -⟩ := startPlaybackLogged_spec env ("spotify:playlist:" ++ pl) dev w3
    exact ⟨hs.2.1.trans hp3, hs.2.2.1.trans hd3⟩

theorem tick_selections (env : Env) (w : World) :
    (monitorTick env w).2.store.selected_playlist_id = w.store.selected_playlist_id ∧
      (monitorTick env w).2.store.preferred_device_id = w.store.preferred_device_id := by
  by_cases hb : w.store.bot_enabled = some true
  swap
  · rw [tick_disabled env w hb]; exact ⟨rfl, rfl⟩
  cases hd : truthyVal (jsOr w.store.preferred_device_id env.PREFERRED_DEVICE_ID) with
  | none => rw [tick_untargeted env w (.inl hd)]; exact ⟨rfl, rfl⟩
  | some dev =>
  cases hl : truthyVal w.store.selected_playlist_id with
  | none => rw [tick_untargeted env w (.inr hl)]; exact ⟨rfl, rfl⟩
  | some pl =>
  obtain ⟨fs, -⟩ := getPlayback_frame env w
  by_cases hf : ∃ pb, (getPlayback env w).1 = .ok (some pb)
  swap
  · have h := (tick_unfetched env w (fun pb h => hf ⟨pb, h⟩)).1
    exact ⟨h.2.1, h.2.2.1⟩
  obtain ⟨pb, hf⟩ := hf
  rw [tick_store]
  by_cases hu : w.store.user_interrupt = some true
  · cases hp : pb.is_playing with
    | true =>
      rw [body_wait env w dev pl pb hb hd hl hf hu hp]
      exact ⟨fs.2.1, fs.2.2.1⟩
    | false => exact body_resume_selections env w dev pl pb hb hd hl hf hu hp
  · by_cases hc : pb.is_playing = true ∧ pb.context_uri ≠ some ("spotify:playlist:" ++ pl)
    · obtain ⟨h1, -⟩ := body_detect env w dev pl pb hb hd hl hf hu hc.1 hc.2
      rw [h1]
      exact ⟨fs.2.1, fs.2.2.1⟩
    · by_cases hn : pb.is_playing = false ∨ pb.device_id ≠ some dev
      · rw [body_correct env w dev pl pb hb hd hl hf hu hc hn]
        obtain ⟨-, hs, -⟩ := startPlaybackLogged_spec env ("spotify:playlist:" ++ pl) dev
          ((getPlayback env w).2.emit
            (Event.consoleLog "[monitor] Reasserting playback on target device & playlist..."))
        exact ⟨hs.2.1.trans fs.2.1, hs.2.2.1.trans fs.2.2.1⟩
      · have hp : pb.is_playing = true := by
          cases h : pb.is_playing
          · exact absurd (.inl h) hn
          · rfl
        have hv : pb.device_id = some dev := by
          by_contra h
          exact hn (.inr h)
        have hx : pb.context_uri = some ("spotify:playlist:" ++ pl) := by
          by_contra h
          exact hc ⟨hp, h⟩
        rw [body_fine env w dev pl pb hb hd hl hf hu hp hx hv]
        exact ⟨fs.2.1, fs.2.2.1⟩

theorem tick_retries (env env3 : Env) (w : World) (dev pl : String) (pb : Playback)
    (hd : truthyVal (jsOr w.store.preferred_device_id env.PREFERRED_DEVICE_ID) = some dev)
    (hl : truthyVal w.store.selected_playlist_id = some pl)
    (hf : (getPlayback env w).1 = .ok (some pb))
    (hcall : startCalls (issued w (monitorTick env w).2) ≠ [])
    (hdev : env3.PREFERRED_DEVICE_ID = env.PREFERRED_DEVICE_ID)
    (hf3 : (getPlayback env3 (monitorTick env w).2).1 = .ok (some pb)) :
    Calls (monitorTick env w).2 (monitorTick env3 (monitorTick env w).2).2
      [("spotify:playlist:" ++ pl, dev)] := by
  have hb : w.store.bot_enabled = some true := by
    by_contra hb
    rw [tick_disabled env w hb] at hcall
    simp [issued, startCalls] at hcall
  obtain ⟨hs1, hs2⟩ := tick_selections env w
  obtain ⟨hb1, hu1⟩ := tick_flags env w
  have hb2 : truthyFlag w.store.bot_enabled = true := by simp [truthyFlag, hb]
  rw [hb2, hd, hl, hf] at hu1
  simp only [] at hu1
  have hd3 : truthyVal (jsOr (monitorTick env w).2.store.preferred_device_id
      env3.PREFERRED_DEVICE_ID) = some dev := by rw [hs2, hdev]; exact hd
  have hl3 : truthyVal (monitorTick env w).2.store.selected_playlist_id = some pl := by
    rw [hs1]; exact hl
  have hb3 : (monitorTick env w).2.store.bot_enabled = some true := hb1.trans hb
  obtain ⟨-, fc⟩ := getPlayback_frame env w
  by_cases hu : w.store.user_interrupt = some true
  · cases hp : pb.is_playing with
    | true =>
      exfalso
      apply hcall
      have hk := tick_calls env w []
      rw [body_wait env w dev pl pb hb hd hl hf hu hp] at hk
      exact (hk fc).startCalls_issued
    | false =>
      have hu3 : (monitorTick env w).2.store.user_interrupt ≠ some true := by
        rw [hu1]; simp [truthyFlag, hu, hp]
      exact tick_correct_calls env3 _ dev pl pb hb3 hd3 hl3 hf3 hu3 (by simp [hp]) (.inl hp)
  · have hu2 : truthyFlag w.store.user_interrupt = false := by simpa [truthyFlag] using hu
    by_cases hc : pb.is_playing = true ∧ pb.context_uri ≠ some ("spotify:playlist:" ++ pl)
    · exfalso
      apply hcall
      obtain ⟨-, h2⟩ := body_detect env w dev pl pb hb hd hl hf hu hc.1 hc.2
      exact (tick_calls env w [] h2).startCalls_issued
    · have hcond : (pb.is_playing && pb.context_uri != some ("spotify:playlist:" ++ pl))
          = false := by
        rcases pb with ⟨playing, ctx, dv⟩
        cases playing <;> simp_all
      have hu3 : (monitorTick env w).2.store.user_interrupt ≠ some true := by
        rw [hu1]; simpa [hu2, hcond] using hu
      by_cases hn : pb.is_playing = false ∨ pb.device_id ≠ some dev
      · exact tick_correct_calls env3 _ dev pl pb hb3 hd3 hl3 hf3 hu3 hc hn
      · exfalso
        apply hcall
        have hp : pb.is_playing = true := by
          cases h : pb.is_playing
          · exact absurd (.inl h) hn
          · rfl
        have hv : pb.device_id = some dev := by
          by_contra h
          exact hn (.inr h)
        have hx : pb.context_uri = some ("spotify:playlist:" ++ pl) := by
          by_contra h
          exact hc ⟨hp, h⟩
        have hk := tick_calls env w []
        rw [body_fine env w dev pl pb hb hd hl hf hu hp hx hv] at hk
        exact (hk fc).startCalls_issued

theorem target_playlist {v : Option String} {pl : String} (h : v = some pl) (hpl : pl ≠ "") :
    truthyVal v = some pl := by
  simp [truthyVal, h, hpl]

theorem target_device (a b : Option String) (dev : String) (hdev : dev ≠ "")
    (h : a = some dev ∨ ((a = none ∨ a = some "") ∧ b = some dev)) :
    truthyVal (jsOr a b) = some dev := by
  rcases h with h | ⟨h | h, hb⟩
  · simp [jsOr, truthyStr, truthyVal, h, hdev]
  · simp [jsOr, truthyStr, truthyVal, h, hb, hdev]
  · simp [jsOr, truthyStr, truthyVal, h, hb, hdev]

/-! ## Token refresh lemmas -/

theorem refresh_skip (env : Env) (w : World)
    (h : truthyVal w.store.refresh_token = none ∨
      (truthyStr w.store.access_token = true ∧
        env.dateNow w.log.length < w.store.token_expires_at.getD 0)) :
    refreshAccessTokenIfNeeded env w = (.ok (), w) := by
  unfold refreshAccessTokenIfNeeded
  rcases h with h | ⟨h1, h2⟩
  · rw [h]
  · split
    · rfl
    · simp [h1, h2]

theorem refresh_run (env : Env) (w : World) (rt : String)
    (hr : truthyVal w.store.refresh_token = some rt)
    (h : truthyStr w.store.access_token = false ∨
      w.store.token_expires_at.getD 0 ≤ env.dateNow w.log.length) :
    refreshAccessTokenIfNeeded env w =
      match env.tokenEndpoint w.log.length rt with
      | .error e => (.error e, w.emit (Event.tokenRequest rt))
      | .ok data =>
        setState env
          { access_token := some data.access_token
            token_expires_at := some (data.expires_in.map fun s =>
              env.dateNow (w.log.length + 1) + (s - 60) * 1000) }
          (w.emit (Event.tokenRequest rt)) := by
  unfold refreshAccessTokenIfNeeded
  have hc : (truthyStr w.store.access_token
      && decide (env.dateNow w.log.length < w.store.token_expires_at.getD 0)) = false := by
    rcases h with h | h
    · simp [h]
    · simp [not_lt.mpr h]
  simp [hr, hc, World.emit]

theorem api_after_refresh (env : Env) (m u : String) (d c : Option String) (w : World) (rt : String)
    (hr : truthyVal w.store.refresh_token = some rt)
    (h : truthyStr w.store.access_token = false ∨
      w.store.token_expires_at.getD 0 ≤ env.dateNow w.log.length) :
    ∃ rest, issued w (api env m u d c w).2 = Event.tokenRequest rt :: rest ∧
      tokenRequests rest = [] := by
  unfold api
  rw [refresh_run env w rt hr h]
  rcases env.tokenEndpoint w.log.length rt with e | data
  · exact ⟨[], by simp [issued, World.emit], rfl⟩
  · simp only [setState]
    rcases env.writeFileSync _ _ with e | u
    · simp [issued, World.emit, tokenRequests]
    · simp only []
      split
      · simp [issued, World.emit, tokenRequests]
      · simp [issued, World.emit, tokenRequests]

theorem api_without_refresh (env : Env) (m u : String) (d c : Option String) (w : World)
    (h : truthyVal w.store.refresh_token = none ∨
      (truthyStr w.store.access_token = true ∧
        env.dateNow w.log.length < w.store.token_expires_at.getD 0)) :
    api env m u d c w =
      match truthyVal w.store.access_token with
      | none => (.error "Not authenticated with Spotify", w)
      | some token =>
        (env.axios w.log.length
            { method := m, url := u, bearer := token, device_id := truthyVal d, context_uri := c },
          w.emit (Event.apiRequest
            { method := m, url := u, bearer := token, device_id := truthyVal d,
              context_uri := c })) := by
  unfold api
  rw [refresh_skip env w h]

theorem truthyVal_some {v : Option String} {t : String} (h : truthyVal v = some t) :
    v = some t ∧ t ≠ "" := by
  unfold truthyVal at h
  cases v with
  | none => simp at h
  | some x =>
    by_cases hx : x = ""
    · simp [hx] at h
    · simp only [bne_iff_ne, ne_eq, hx, not_false_eq_true, if_true, Option.some.injEq] at h
      subst h
      exact ⟨rfl, hx⟩

theorem refresh_requests (env : Env) (w : World) :
    apiRequests (issued w (refreshAccessTokenIfNeeded env w).2) = [] := by
  unfold refreshAccessTokenIfNeeded
  split
  · simp [issued, apiRequests]
  · split
    · simp [issued, apiRequests]
    · split
      · simp [issued, World.emit, apiRequests]
      · simp [issued, World.emit, setState, apiRequests]


theorem api_refreshed (env : Env) (m u : String) (d c : Option String) (w : World) (rt : String)
    (hr : truthyVal w.store.refresh_token = some rt)
    (h : truthyStr w.store.access_token = false ∨
      w.store.token_expires_at.getD 0 ≤ env.dateNow w.log.length) :
    (∃ e, api env m u d c w = (.error e, w.emit (Event.tokenRequest rt))) ∨
    ∃ data s2, env.tokenEndpoint w.log.length rt = .ok data ∧
      s2 = w.store.assign
        { access_token := some data.access_token
          token_expires_at := some (data.expires_in.map fun s =>
            env.dateNow (w.log.length + 1) + (s - 60) * 1000) } ∧
      ((∃ e, api env m u d c w =
          (.error e, ⟨s2, w.log ++ [Event.tokenRequest rt, Event.writeFile s2]⟩)) ∨
        ∃ tok, truthyVal data.access_token = some tok ∧
          api env m u d c w =
            (env.axios (w.log.length + 2)
                { method := m, url := u, bearer := tok, device_id := truthyVal d
                  context_uri := c },
              ⟨s2, w.log ++ [Event.tokenRequest rt, Event.writeFile s2,
                Event.apiRequest
                  { method := m, url := u, bearer := tok, device_id := truthyVal d
                    context_uri := c }]⟩)) := by
  unfold api
  rw [refresh_run env w rt hr h]
  cases hd : env.tokenEndpoint w.log.length rt with
  | error e => exact .inl ⟨e, rfl⟩
  | ok data =>
    right
    refine ⟨data, _, rfl, rfl, ?_⟩
    simp only [setState, World.emit, List.length_append, List.length_singleton]
    cases hw : env.writeFileSync (w.log.length + 1) (w.store.assign
        { access_token := some data.access_token
          token_expires_at := some (data.expires_in.map fun s =>
            env.dateNow (w.log.length + 1) + (s - 60) * 1000) }) with
    | error e => left; exact ⟨e, by simp⟩
    | ok un =>
      simp only []
      cases ha : truthyVal data.access_token with
      | none =>
        left
        refine ⟨"Not authenticated with Spotify", ?_⟩
        have ha2 : truthyVal (Store.assign w.store
            { access_token := some data.access_token
              token_expires_at := some (data.expires_in.map fun s =>
                env.dateNow (w.log.length + 1) + (s - 60) * 1000) }).access_token
            = none := ha
        simp [ha2]
      | some tok =>
        right
        refine ⟨tok, rfl, ?_⟩
        have ha2 : truthyVal (Store.assign w.store
            { access_token := some data.access_token
              token_expires_at := some (data.expires_in.map fun s =>
                env.dateNow (w.log.length + 1) + (s - 60) * 1000) }).access_token
            = some tok := ha
        simp [ha2]

/-! ## The monitor loop -/

/-- C1: with `bot_enabled` false or absent, one run of monitorTick leaves
every field of the record unchanged and issues no event at all: no
startPlayback invocation and no request to the Web API, whatever the
environment (and so whatever the live playback status) is. -/
theorem monitorTick_disabled_noop (env : Env) (w : World)
    (h : w.store.bot_enabled = some false ∨ w.store.bot_enabled = none) :
    (monitorTick env w).2.store = w.store ∧
      issued w (monitorTick env w).2 = [] ∧
      startCalls (issued w (monitorTick env w).2) = [] ∧
      apiRequests (issued w (monitorTick env w).2) = [] := by
  have hb : w.store.bot_enabled ≠ some true := by
    rcases h with h | h <;> simp [h]
  rw [tick_disabled env w hb]
  simp [issued, startCalls, apiRequests]

/-- Witness of C1: the bot is off while another playlist is playing. -/
theorem monitorTick_disabled_noop_witness :
    (disabledStore.bot_enabled = some false ∨ disabledStore.bot_enabled = none) ∧
      (monitorTick (sampleEnv 0 (some elsewhere) (.ok none) (.ok ())) ⟨disabledStore, []⟩).2.store
        = disabledStore ∧
      issued ⟨disabledStore, []⟩
        (monitorTick (sampleEnv 0 (some elsewhere) (.ok none) (.ok ())) ⟨disabledStore, []⟩).2
        = [] :=
  ⟨.inl rfl,
    (monitorTick_disabled_noop (sampleEnv 0 (some elsewhere) (.ok none) (.ok ()))
      ⟨disabledStore, []⟩ (.inl rfl)).1,
    (monitorTick_disabled_noop (sampleEnv 0 (some elsewhere) (.ok none) (.ok ()))
      ⟨disabledStore, []⟩ (.inl rfl)).2.1⟩

/-- C2 as stated fails when nothing is playing: with `user_interrupt` false,
live `is_playing` false and another playlist as live context, the tick leaves
`user_interrupt` false and invokes startPlayback. -/
theorem monitorTick_paused_other_context_reasserts :
    sampleStore.bot_enabled = some true ∧
      truthyVal (jsOr sampleStore.preferred_device_id none) = some "D1" ∧
      truthyVal sampleStore.selected_playlist_id = some "P1" ∧
      (getPlayback (sampleEnv 0 (some pausedElsewhere) (.ok none) (.ok ())) ⟨sampleStore, []⟩).1
        = .ok (some pausedElsewhere) ∧
      sampleStore.user_interrupt = some false ∧
      pausedElsewhere.context_uri ≠ some ("spotify:playlist:" ++ "P1") ∧
      (monitorTick (sampleEnv 0 (some pausedElsewhere) (.ok none) (.ok ()))
        ⟨sampleStore, []⟩).2.store.user_interrupt = some false ∧
      startCalls (issued ⟨sampleStore, []⟩
        (monitorTick (sampleEnv 0 (some pausedElsewhere) (.ok none) (.ok ()))
          ⟨sampleStore, []⟩).2)
        = [("spotify:playlist:P1", "D1")] :=
  ⟨rfl, rfl, rfl, rfl, rfl, by decide, rfl, rfl⟩

/-- C2 (amended): when the preconditions of the tick hold, `user_interrupt` is
not set, and the live playback is playing (`is_playing` true) a context whose
uri differs from `"spotify:playlist:" + selected_playlist_id` (or has no
context), then after monitorTick `user_interrupt` is true, `bot_enabled` is
unchanged and no startPlayback invocation was issued. -/
theorem monitorTick_detects_interrupt (env : Env) (w : World) (dev pl : String) (pb : Playback)
    (hb : w.store.bot_enabled = some true)
    (hd : truthyVal (jsOr w.store.preferred_device_id env.PREFERRED_DEVICE_ID) = some dev)
    (hl : truthyVal w.store.selected_playlist_id = some pl)
    (hf : (getPlayback env w).1 = .ok (some pb))
    (hu : w.store.user_interrupt ≠ some true)
    (hp : pb.is_playing = true)
    (hx : pb.context_uri ≠ some ("spotify:playlist:" ++ pl)) :
    (monitorTick env w).2.store.user_interrupt = some true ∧
      (monitorTick env w).2.store.bot_enabled = some true ∧
      startCalls (issued w (monitorTick env w).2) = [] := by
  obtain ⟨h1, h2⟩ := body_detect env w dev pl pb hb hd hl hf hu hp hx
  refine ⟨?_, ?_, (tick_calls env w [] h2).startCalls_issued⟩
  · rw [tick_store, h1]; rfl
  · rw [(tick_flags env w).1]; exact hb

/-- Witness of C2 (amended): scenario B, another playlist playing on another
device. -/
theorem monitorTick_detects_interrupt_witness :
    (monitorTick (sampleEnv 0 (some elsewhere) (.ok none) (.ok ()))
        ⟨sampleStore, []⟩).2.store.user_interrupt = some true ∧
      (monitorTick (sampleEnv 0 (some elsewhere) (.ok none) (.ok ()))
        ⟨sampleStore, []⟩).2.store.bot_enabled = some true ∧
      startCalls (issued ⟨sampleStore, []⟩
        (monitorTick (sampleEnv 0 (some elsewhere) (.ok none) (.ok ())) ⟨sampleStore, []⟩).2)
        = [] :=
  monitorTick_detects_interrupt (sampleEnv 0 (some elsewhere) (.ok none) (.ok ()))
    ⟨sampleStore, []⟩ "D1" "P1" elsewhere rfl rfl rfl rfl (by decide) rfl (by decide)

/-- C3 as stated fails when the write of the record throws: with
`user_interrupt` true and live `is_playing` false, the flag is cleared in
memory, the failing `fs.writeFileSync` ends the tick, and no startPlayback
invocation is issued. -/
theorem monitorTick_resume_write_failure :
    interruptedStore.bot_enabled = some true ∧
      truthyVal (jsOr interruptedStore.preferred_device_id none) = some "D1" ∧
      truthyVal interruptedStore.selected_playlist_id = some "P1" ∧
      (getPlayback (sampleEnv 0 (some idle) (.ok none) (.error "EACCES"))
        ⟨interruptedStore, []⟩).1 = .ok (some idle) ∧
      interruptedStore.user_interrupt = some true ∧
      idle.is_playing = false ∧
      (monitorTick (sampleEnv 0 (some idle) (.ok none) (.error "EACCES"))
        ⟨interruptedStore, []⟩).2.store.user_interrupt = some false ∧
      startCalls (issued ⟨interruptedStore, []⟩
        (monitorTick (sampleEnv 0 (some idle) (.ok none) (.error "EACCES"))
          ⟨interruptedStore, []⟩).2) = [] :=
  ⟨rfl, rfl, rfl, rfl, rfl, rfl, rfl, rfl⟩

/-- C3 (amended): when the preconditions of the tick hold (`bot_enabled`
true; target device `dev`, which is `preferred_device_id` when that is present
and non-empty and else the configured `PREFERRED_DEVICE_ID`; playlist `pl`
selected; playback status fetched), `user_interrupt` is true and live
`is_playing` is false, then after monitorTick `user_interrupt` is false and
`bot_enabled` is still true.  If the write of the record with the cleared flag
succeeds (the `fs.writeFileSync` of that very record, asked right after the
"User idle" log line), exactly one startPlayback invocation was issued, with
`context_uri = "spotify:playlist:" + selected_playlist_id` and device `dev`;
if that write throws, none was issued. -/
theorem monitorTick_resumes (env : Env) (w : World) (dev pl : String) (pb : Playback)
    (hb : w.store.bot_enabled = some true)
    (hd : w.store.preferred_device_id = some dev ∨
      ((w.store.preferred_device_id = none ∨ w.store.preferred_device_id = some "") ∧
        env.PREFERRED_DEVICE_ID = some dev))
    (hdev : dev ≠ "")
    (hl : w.store.selected_playlist_id = some pl) (hpl : pl ≠ "")
    (hf : (getPlayback env w).1 = .ok (some pb))
    (hu : w.store.user_interrupt = some true)
    (hp : pb.is_playing = false) :
    (monitorTick env w).2.store.user_interrupt = some false ∧
      (monitorTick env w).2.store.bot_enabled = some true ∧
      (env.writeFileSync ((getPlayback env w).2.log.length + 1)
          ((getPlayback env w).2.store.assign { user_interrupt := some (some false) }) = .ok () →
        startCalls (issued w (monitorTick env w).2) = [("spotify:playlist:" ++ pl, dev)]) ∧
      ((∃ e, env.writeFileSync ((getPlayback env w).2.log.length + 1)
          ((getPlayback env w).2.store.assign { user_interrupt := some (some false) })
            = .error e) →
        startCalls (issued w (monitorTick env w).2) = []) := by
  obtain ⟨h1, h2, h3, h4⟩ := body_resume env w dev pl pb hb
    (target_device _ _ dev hdev hd) (target_playlist hl hpl) hf hu hp
  refine ⟨?_, ?_, fun hw => (tick_calls env w _ (h3 hw)).startCalls_issued,
    fun hw => (tick_calls env w _ (h4 hw)).startCalls_issued⟩
  · rw [tick_store]; exact h1
  · rw [tick_store]; exact h2

/-- Witness of C3 (amended): scenario C, interrupted and now idle, on the
chosen device `D1`; the same with no chosen device and `PREFERRED_DEVICE_ID=D9`;
and with a file system that accepts only a record whose flag is cleared. -/
theorem monitorTick_resumes_witness :
    (monitorTick (sampleEnv 0 (some idle) (.ok none) (.ok ()))
        ⟨interruptedStore, []⟩).2.store.user_interrupt = some false ∧
      startCalls (issued ⟨interruptedStore, []⟩
        (monitorTick (sampleEnv 0 (some idle) (.ok none) (.ok ())) ⟨interruptedStore, []⟩).2)
        = [("spotify:playlist:" ++ "P1", "D1")] ∧
      startCalls (issued ⟨interruptedFallbackStore, []⟩
        (monitorTick (fallbackEnv (some idle)) ⟨interruptedFallbackStore, []⟩).2)
        = [("spotify:playlist:" ++ "P1", "D9")] ∧
      startCalls (issued ⟨interruptedStore, []⟩
        (monitorTick (pickyEnv (some idle)) ⟨interruptedStore, []⟩).2)
        = [("spotify:playlist:" ++ "P1", "D1")] ∧
      (monitorTick (fallbackEnv (some idle)) ⟨interruptedFallbackStore, []⟩).2.log
        = [Event.apiRequest
            { method := "get", url := "/me/player", bearer := "A", device_id := none
              context_uri := none },
          Event.consoleLog "[monitor] User idle; resuming bot playback.",
          Event.writeFile { interruptedFallbackStore with user_interrupt := some false },
          Event.startPlayback "spotify:playlist:P1" "D9",
          Event.apiRequest
            { method := "put", url := "/me/player/play", bearer := "A", device_id := some "D9"
              context_uri := some "spotify:playlist:P1" }] :=
  ⟨(monitorTick_resumes (sampleEnv 0 (some idle) (.ok none) (.ok ()))
      ⟨interruptedStore, []⟩ "D1" "P1" idle rfl (.inl rfl) (by decide) rfl (by decide)
      rfl rfl rfl).1,
    (monitorTick_resumes (sampleEnv 0 (some idle) (.ok none) (.ok ()))
      ⟨interruptedStore, []⟩ "D1" "P1" idle rfl (.inl rfl) (by decide) rfl (by decide)
      rfl rfl rfl).2.2.1 rfl,
    (monitorTick_resumes (fallbackEnv (some idle))
      ⟨interruptedFallbackStore, []⟩ "D9" "P1" idle rfl (.inr ⟨.inl rfl, rfl⟩) (by decide)
      rfl (by decide) rfl rfl rfl).2.2.1 rfl,
    (monitorTick_resumes (pickyEnv (some idle))
      ⟨interruptedStore, []⟩ "D1" "P1" idle rfl (.inl rfl) (by decide) rfl (by decide)
      rfl rfl rfl).2.2.1 rfl,
    rfl⟩

/-- C4: with `user_interrupt` true before the tick and live `is_playing`
true (whenever a playback status is fetched at all), monitorTick issues no
startPlayback invocation and leaves `user_interrupt` (true), `bot_enabled`,
`selected_playlist_id` and `preferred_device_id` unchanged, for every live
context and every live device. -/
theorem monitorTick_interrupted_playing_noop (env : Env) (w : World)
    (hu : w.store.user_interrupt = some true)
    (hp : ∀ pb, (getPlayback env w).1 = .ok (some pb) → pb.is_playing = true) :
    startCalls (issued w (monitorTick env w).2) = [] ∧
      (monitorTick env w).2.store.user_interrupt = some true ∧
      (monitorTick env w).2.store.bot_enabled = w.store.bot_enabled ∧
      (monitorTick env w).2.store.selected_playlist_id = w.store.selected_playlist_id ∧
      (monitorTick env w).2.store.preferred_device_id = w.store.preferred_device_id := by
  have key : SameSelections w (monitorTick env w).2 ∧ Calls w (monitorTick env w).2 [] := by
    by_cases hb : w.store.bot_enabled = some true
    swap
    · rw [tick_disabled env w hb]; exact ⟨.unchanged w, .silent w⟩
    cases hd : truthyVal (jsOr w.store.preferred_device_id env.PREFERRED_DEVICE_ID) with
    | none => rw [tick_untargeted env w (.inl hd)]; exact ⟨.unchanged w, .silent w⟩
    | some dev =>
    cases hl : truthyVal w.store.selected_playlist_id with
    | none => rw [tick_untargeted env w (.inr hl)]; exact ⟨.unchanged w, .silent w⟩
    | some pl =>
    by_cases hf : ∃ pb, (getPlayback env w).1 = .ok (some pb)
    · obtain ⟨pb, hf⟩ := hf
      have hbody := body_wait env w dev pl pb hb hd hl hf hu (hp pb hf)
      obtain ⟨fs, fc⟩ := getPlayback_frame env w
      have hs := tick_store env w
      have hc := tick_calls env w []
      rw [hbody] at hs hc
      exact ⟨by unfold SameSelections; rw [hs]; exact fs, hc fc⟩
    · exact tick_unfetched env w (fun pb h => hf ⟨pb, h⟩)
  obtain ⟨⟨-, h2, h3, h4, h5⟩, hc⟩ := key
  exact ⟨hc.startCalls_issued, h5.trans hu, h4, h2, h3⟩

/-- Witness of C4: interrupted while another playlist plays on another device. -/
theorem monitorTick_interrupted_playing_noop_witness :
    startCalls (issued ⟨interruptedStore, []⟩
        (monitorTick (sampleEnv 0 (some elsewhere) (.ok none) (.ok ()))
          ⟨interruptedStore, []⟩).2) = [] ∧
      (monitorTick (sampleEnv 0 (some elsewhere) (.ok none) (.ok ()))
        ⟨interruptedStore, []⟩).2.store.user_interrupt = some true :=
  ⟨(monitorTick_interrupted_playing_noop (sampleEnv 0 (some elsewhere) (.ok none) (.ok ()))
      ⟨interruptedStore, []⟩ rfl
      (fun pb h => by
        have h2 : (Except.ok (some elsewhere) : Except String (Option Playback))
            = .ok (some pb) := h
        cases h2; rfl)).1,
    (monitorTick_interrupted_playing_noop (sampleEnv 0 (some elsewhere) (.ok none) (.ok ()))
      ⟨interruptedStore, []⟩ rfl
      (fun pb h => by
        have h2 : (Except.ok (some elsewhere) : Except String (Option Playback))
            = .ok (some pb) := h
        cases h2; rfl)).2.1⟩

/-- C5: when the preconditions of the tick hold (`bot_enabled` true; target
device `dev`, which is `preferred_device_id` when that is present and
non-empty and else the configured `PREFERRED_DEVICE_ID`; playlist `pl`
selected; playback status fetched), `user_interrupt` is not set and the live
playback is not playing a different context, monitorTick issues exactly one
startPlayback invocation, with
`context_uri = "spotify:playlist:" + selected_playlist_id` and device `dev`,
when live `is_playing` is false or the live device differs from `dev`; it
issues none when the target context is playing on `dev`; in both cases
`user_interrupt` keeps its value. -/
theorem monitorTick_armed (env : Env) (w : World) (dev pl : String) (pb : Playback)
    (hb : w.store.bot_enabled = some true)
    (hd : w.store.preferred_device_id = some dev ∨
      ((w.store.preferred_device_id = none ∨ w.store.preferred_device_id = some "") ∧
        env.PREFERRED_DEVICE_ID = some dev))
    (hdev : dev ≠ "")
    (hl : w.store.selected_playlist_id = some pl) (hpl : pl ≠ "")
    (hf : (getPlayback env w).1 = .ok (some pb))
    (hu : w.store.user_interrupt ≠ some true)
    (hc : ¬ (pb.is_playing = true ∧ pb.context_uri ≠ some ("spotify:playlist:" ++ pl))) :
    (pb.is_playing = false ∨ pb.device_id ≠ some dev →
      startCalls (issued w (monitorTick env w).2) = [("spotify:playlist:" ++ pl, dev)]) ∧
    (pb.is_playing = true ∧ pb.context_uri = some ("spotify:playlist:" ++ pl) ∧
        pb.device_id = some dev →
      startCalls (issued w (monitorTick env w).2) = []) ∧
    (monitorTick env w).2.store.user_interrupt = w.store.user_interrupt := by
  have hd2 := target_device _ _ dev hdev hd
  have hl2 := target_playlist hl hpl
  obtain ⟨-, fc⟩ := getPlayback_frame env w
  refine ⟨fun hn => ?_, fun hok => ?_, ?_⟩
  · exact (tick_correct_calls env w dev pl pb hb hd2 hl2 hf hu hc hn).startCalls_issued
  · have hbody := body_fine env w dev pl pb hb hd2 hl2 hf hu hok.1 hok.2.1 hok.2.2
    have hk := tick_calls env w []
    rw [hbody] at hk
    exact (hk fc).startCalls_issued
  · have h := (tick_flags env w).2
    have hb2 : truthyFlag w.store.bot_enabled = true := by simp [truthyFlag, hb]
    have hu2 : truthyFlag w.store.user_interrupt = false := by simpa [truthyFlag] using hu
    have hcond : (pb.is_playing && pb.context_uri != some ("spotify:playlist:" ++ pl))
        = false := by
      rcases pb with ⟨playing, ctx, dv⟩
      cases playing <;> simp_all
    rw [h, hb2, hd2, hl2, hf]
    simp [hu2, hcond]

/-- Witness of C5: scenario A (nothing is playing) on the chosen device `D1`;
the steady state; the target playlist playing on another device; and
scenario A with no chosen device and `PREFERRED_DEVICE_ID=D9`. -/
theorem monitorTick_armed_witness :
    startCalls (issued ⟨sampleStore, []⟩
        (monitorTick (sampleEnv 0 (some idle) (.ok none) (.ok ())) ⟨sampleStore, []⟩).2)
        = [("spotify:playlist:" ++ "P1", "D1")] ∧
      startCalls (issued ⟨sampleStore, []⟩
        (monitorTick (sampleEnv 0 (some onTarget) (.ok none) (.ok ())) ⟨sampleStore, []⟩).2)
        = [] ∧
      startCalls (issued ⟨sampleStore, []⟩
        (monitorTick (sampleEnv 0 (some onOtherDevice) (.ok none) (.ok ()))
          ⟨sampleStore, []⟩).2)
        = [("spotify:playlist:" ++ "P1", "D1")] ∧
      startCalls (issued ⟨fallbackStore, []⟩
        (monitorTick (fallbackEnv (some idle)) ⟨fallbackStore, []⟩).2)
        = [("spotify:playlist:" ++ "P1", "D9")] ∧
      startCalls (issued ⟨fallbackStore, []⟩
        (monitorTick (fallbackEnv (some onFallbackDevice)) ⟨fallbackStore, []⟩).2)
        = [] ∧
      (monitorTick (fallbackEnv (some idle)) ⟨fallbackStore, []⟩).2.log
        = [Event.apiRequest
            { method := "get", url := "/me/player", bearer := "A", device_id := none
              context_uri := none },
          Event.consoleLog "[monitor] Reasserting playback on target device & playlist...",
          Event.startPlayback "spotify:playlist:P1" "D9",
          Event.apiRequest
            { method := "put", url := "/me/player/play", bearer := "A", device_id := some "D9"
              context_uri := some "spotify:playlist:P1" }] :=
  ⟨(monitorTick_armed (sampleEnv 0 (some idle) (.ok none) (.ok ())) ⟨sampleStore, []⟩
      "D1" "P1" idle rfl (.inl rfl) (by decide) rfl (by decide) rfl (by decide)
      (by decide)).1 (.inl rfl),
    (monitorTick_armed (sampleEnv 0 (some onTarget) (.ok none) (.ok ())) ⟨sampleStore, []⟩
      "D1" "P1" onTarget rfl (.inl rfl) (by decide) rfl (by decide) rfl (by decide)
      (by decide)).2.1 ⟨rfl, rfl, rfl⟩,
    (monitorTick_armed (sampleEnv 0 (some onOtherDevice) (.ok none) (.ok ())) ⟨sampleStore, []⟩
      "D1" "P1" onOtherDevice rfl (.inl rfl) (by decide) rfl (by decide) rfl (by decide)
      (by decide)).1 (.inr (by decide)),
    (monitorTick_armed (fallbackEnv (some idle)) ⟨fallbackStore, []⟩
      "D9" "P1" idle rfl (.inr ⟨.inl rfl, rfl⟩) (by decide) rfl (by decide) rfl (by decide)
      (by decide)).1 (.inl rfl),
    (monitorTick_armed (fallbackEnv (some onFallbackDevice)) ⟨fallbackStore, []⟩
      "D9" "P1" onFallbackDevice rfl (.inr ⟨.inl rfl, rfl⟩) (by decide) rfl (by decide) rfl
      (by decide) (by decide)).2.1 ⟨rfl, rfl, rfl⟩,
    rfl⟩

/-- C9: the flags after a tick do not depend on how the startPlayback command
ends.  Two runs of monitorTick from the same record, with the same fallback
device and the same fetched playback status, end with the same
`user_interrupt` and the same `bot_enabled`, whatever else differs between the
two environments: in particular whether the Web API accepts or rejects the
`PUT /me/player/play` of startPlayback, and whether its token refresh
succeeds; and `bot_enabled` is the value it had before the tick.  The loop is
level-triggered: if the tick invoked startPlayback, a next tick that fetches
the same playback status invokes it again, once, with the target context and
device. -/
theorem monitorTick_flags_ignore_outcome (env env2 : Env) (w : World)
    (hdev : env.PREFERRED_DEVICE_ID = env2.PREFERRED_DEVICE_ID)
    (hfetch : (getPlayback env w).1 = (getPlayback env2 w).1) :
    (monitorTick env w).2.store.user_interrupt = (monitorTick env2 w).2.store.user_interrupt ∧
      (monitorTick env w).2.store.bot_enabled = (monitorTick env2 w).2.store.bot_enabled ∧
      (monitorTick env w).2.store.bot_enabled = w.store.bot_enabled ∧
      (∀ (next : Env) (dev pl : String) (pb : Playback),
        truthyVal (jsOr w.store.preferred_device_id env.PREFERRED_DEVICE_ID) = some dev →
        truthyVal w.store.selected_playlist_id = some pl →
        (getPlayback env w).1 = .ok (some pb) →
        startCalls (issued w (monitorTick env w).2) ≠ [] →
        next.PREFERRED_DEVICE_ID = env.PREFERRED_DEVICE_ID →
        (getPlayback next (monitorTick env w).2).1 = .ok (some pb) →
        startCalls (issued (monitorTick env w).2 (monitorTick next (monitorTick env w).2).2)
          = [("spotify:playlist:" ++ pl, dev)]) := by
  obtain ⟨b1, u1⟩ := tick_flags env w
  obtain ⟨b2, u2⟩ := tick_flags env2 w
  refine ⟨?_, b1.trans b2.symm, b1, ?_⟩
  · rw [u1, u2, hdev, hfetch]
  · intro next dev pl pb hd hl hf hcall hnext hf3
    exact (tick_retries env next w dev pl pb hd hl hf hcall hnext hf3).startCalls_issued

/-- Witness of C9: the corrective call of scenario A, once accepted and once
rejected by the Web API; both ticks invoke startPlayback and end with the
same flags, and the tick after the rejected call invokes it again. -/
theorem monitorTick_flags_ignore_outcome_witness :
    startCalls (issued ⟨sampleStore, []⟩
        (monitorTick (sampleEnv 0 (some idle) (.error "NO_ACTIVE_DEVICE") (.ok ()))
          ⟨sampleStore, []⟩).2) = [("spotify:playlist:P1", "D1")] ∧
      startCalls (issued ⟨sampleStore, []⟩
        (monitorTick (sampleEnv 0 (some idle) (.ok none) (.ok ())) ⟨sampleStore, []⟩).2)
        = [("spotify:playlist:P1", "D1")] ∧
      (startPlayback (sampleEnv 0 (some idle) (.error "NO_ACTIVE_DEVICE") (.ok ()))
        "spotify:playlist:P1" "D1" ⟨sampleStore, []⟩).1 = .error "NO_ACTIVE_DEVICE" ∧
      (startPlayback (sampleEnv 0 (some idle) (.ok none) (.ok ()))
        "spotify:playlist:P1" "D1" ⟨sampleStore, []⟩).1 = .ok none ∧
      (monitorTick (sampleEnv 0 (some idle) (.error "NO_ACTIVE_DEVICE") (.ok ()))
          ⟨sampleStore, []⟩).2.store.user_interrupt
        = (monitorTick (sampleEnv 0 (some idle) (.ok none) (.ok ()))
          ⟨sampleStore, []⟩).2.store.user_interrupt ∧
      (monitorTick (sampleEnv 0 (some idle) (.error "NO_ACTIVE_DEVICE") (.ok ()))
          ⟨sampleStore, []⟩).2.store.bot_enabled
        = (monitorTick (sampleEnv 0 (some idle) (.ok none) (.ok ()))
          ⟨sampleStore, []⟩).2.store.bot_enabled ∧
      startCalls (issued
          (monitorTick (sampleEnv 0 (some idle) (.error "NO_ACTIVE_DEVICE") (.ok ()))
            ⟨sampleStore, []⟩).2
          (monitorTick (sampleEnv 0 (some idle) (.error "NO_ACTIVE_DEVICE") (.ok ()))
            (monitorTick (sampleEnv 0 (some idle) (.error "NO_ACTIVE_DEVICE") (.ok ()))
              ⟨sampleStore, []⟩).2).2) = [("spotify:playlist:" ++ "P1", "D1")] :=
  ⟨rfl, rfl, rfl, rfl,
    (monitorTick_flags_ignore_outcome
      (sampleEnv 0 (some idle) (.error "NO_ACTIVE_DEVICE") (.ok ()))
      (sampleEnv 0 (some idle) (.ok none) (.ok ())) ⟨sampleStore, []⟩ rfl rfl).1,
    (monitorTick_flags_ignore_outcome
      (sampleEnv 0 (some idle) (.error "NO_ACTIVE_DEVICE") (.ok ()))
      (sampleEnv 0 (some idle) (.ok none) (.ok ())) ⟨sampleStore, []⟩ rfl rfl).2.1,
    (monitorTick_flags_ignore_outcome
      (sampleEnv 0 (some idle) (.error "NO_ACTIVE_DEVICE") (.ok ()))
      (sampleEnv 0 (some idle) (.ok none) (.ok ())) ⟨sampleStore, []⟩ rfl rfl).2.2.2
      (sampleEnv 0 (some idle) (.error "NO_ACTIVE_DEVICE") (.ok ())) "D1" "P1" idle
      rfl rfl rfl (by decide) rfl rfl⟩

/-- C10: monitorTick never propagates an error.  For every record and every
environment (every outcome of the status fetch, the token refresh, the
startPlayback command and the file write) the tick settles normally; and when
the status fetch fails or comes back empty, the tick issues no startPlayback
invocation and leaves both flags and both selections as they were. -/
theorem monitorTick_never_throws (env : Env) (w : World) :
    (monitorTick env w).1 = .ok () ∧
      ((getPlayback env w).1 = .ok none ∨ (∃ e, (getPlayback env w).1 = .error e) →
        startCalls (issued w (monitorTick env w).2) = [] ∧
          (monitorTick env w).2.store.user_interrupt = w.store.user_interrupt ∧
          (monitorTick env w).2.store.bot_enabled = w.store.bot_enabled ∧
          (monitorTick env w).2.store.selected_playlist_id = w.store.selected_playlist_id ∧
          (monitorTick env w).2.store.preferred_device_id = w.store.preferred_device_id) := by
  refine ⟨tick_ok env w, fun h => ?_⟩
  have hno : ∀ pb, (getPlayback env w).1 ≠ .ok (some pb) := by
    intro pb hpb
    rcases h with h | ⟨e, h⟩ <;> rw [h] at hpb <;> cases hpb
  obtain ⟨⟨-, h2, h3, h4, h5⟩, hc⟩ := tick_unfetched env w hno
  exact ⟨hc.startCalls_issued, h5, h4, h2, h3⟩

/-- Witness of C10: an empty answer of `GET /me/player` (nothing to
reconcile), and a record without tokens whose fetch is rejected. -/
theorem monitorTick_never_throws_witness :
    startCalls (issued ⟨sampleStore, []⟩
        (monitorTick (sampleEnv 0 none (.ok none) (.ok ())) ⟨sampleStore, []⟩).2) = [] ∧
      startCalls (issued ⟨unauthenticatedStore, []⟩
        (monitorTick (sampleEnv 0 (some idle) (.ok none) (.ok ()))
          ⟨unauthenticatedStore, []⟩).2) = [] :=
  ⟨((monitorTick_never_throws (sampleEnv 0 none (.ok none) (.ok ())) ⟨sampleStore, []⟩).2
      (.inl rfl)).1,
    ((monitorTick_never_throws (sampleEnv 0 (some idle) (.ok none) (.ok ()))
      ⟨unauthenticatedStore, []⟩).2 (.inr ⟨"Not authenticated with Spotify", rfl⟩)).1⟩

/-! ## The token lifecycle -/

/-- C6 as stated fails for a record without a refresh token: the access token
expired at 100, the clock reads 200, and `api` sends no refresh request. -/
theorem api_stale_no_refresh :
    staleStore.token_expires_at = some 100 ∧
      (sampleEnv 200 none (.ok none) (.ok ())).dateNow 0 = 200 ∧
      tokenRequests (issued ⟨staleStore, []⟩
        (api (sampleEnv 200 none (.ok none) (.ok ())) "get" "/me/player" none none
          ⟨staleStore, []⟩).2) = [] :=
  ⟨rfl, rfl, rfl⟩

/-- C6 (amended): let `now` be the clock reading when
refreshAccessTokenIfNeeded runs and let an absent `token_expires_at` count as
0.  A call through `api` sends exactly one refresh request, as the first event
of the call and so before the API request, if a refresh token is present and
`now >= token_expires_at`; it sends none if an access token is present and
`now < token_expires_at`.  Without a refresh token it sends none whatever the
expiry; with a refresh token and no access token it sends one whatever the
expiry. -/
theorem api_refresh_requests (env : Env) (m u : String) (d c : Option String) (w : World) :
    (∀ rt, truthyVal w.store.refresh_token = some rt →
      w.store.token_expires_at.getD 0 ≤ env.dateNow w.log.length →
      tokenRequests (issued w (api env m u d c w).2) = [rt] ∧
        ∃ rest, issued w (api env m u d c w).2 = Event.tokenRequest rt :: rest) ∧
    (truthyStr w.store.access_token = true →
      env.dateNow w.log.length < w.store.token_expires_at.getD 0 →
      tokenRequests (issued w (api env m u d c w).2) = []) ∧
    (truthyVal w.store.refresh_token = none →
      tokenRequests (issued w (api env m u d c w).2) = []) ∧
    (∀ rt, truthyVal w.store.refresh_token = some rt →
      truthyStr w.store.access_token = false →
      tokenRequests (issued w (api env m u d c w).2) = [rt] ∧
        ∃ rest, issued w (api env m u d c w).2 = Event.tokenRequest rt :: rest) := by
  have skip : (truthyVal w.store.refresh_token = none ∨
      (truthyStr w.store.access_token = true ∧
        env.dateNow w.log.length < w.store.token_expires_at.getD 0)) →
      tokenRequests (issued w (api env m u d c w).2) = [] := by
    intro h
    rw [api_without_refresh env m u d c w h]
    split <;> simp [issued, World.emit, tokenRequests]
  have run : ∀ rt, truthyVal w.store.refresh_token = some rt →
      (truthyStr w.store.access_token = false ∨
        w.store.token_expires_at.getD 0 ≤ env.dateNow w.log.length) →
      tokenRequests (issued w (api env m u d c w).2) = [rt] ∧
        ∃ rest, issued w (api env m u d c w).2 = Event.tokenRequest rt :: rest := by
    intro rt hr h
    obtain ⟨rest, h1, h2⟩ := api_after_refresh env m u d c w rt hr h
    refine ⟨?_, rest, h1⟩
    rw [h1]
    simpa [tokenRequests] using h2
  exact ⟨fun rt hr h => run rt hr (.inr h), fun ha h => skip (.inr ⟨ha, h⟩),
    fun h => skip (.inl h), fun rt hr ha => run rt hr (.inl ha)⟩

/-- Witness of C6 (amended): an expired token with a refresh token at hand is
refreshed once; a valid token is not. -/
theorem api_refresh_requests_witness :
    tokenRequests (issued ⟨expiredStore, []⟩
        (api (sampleEnv 200 none (.ok none) (.ok ())) "get" "/me/player" none none
          ⟨expiredStore, []⟩).2) = ["R"] ∧
      tokenRequests (issued ⟨sampleStore, []⟩
        (api (sampleEnv 200 none (.ok none) (.ok ())) "get" "/me/player" none none
          ⟨sampleStore, []⟩).2) = [] :=
  ⟨((api_refresh_requests (sampleEnv 200 none (.ok none) (.ok ())) "get" "/me/player" none none
      ⟨expiredStore, []⟩).1 "R" rfl (by decide)).1,
    (api_refresh_requests (sampleEnv 200 none (.ok none) (.ok ())) "get" "/me/player" none none
      ⟨sampleStore, []⟩).2.1 rfl (by decide)⟩

/-- C7 as stated fails for a record without a refresh token: the access token
`A` expired at 100, the clock reads 200, and `api` sends the request with
bearer `A` while the record still says it expired at 100. -/
theorem api_sends_stale_token :
    issued ⟨staleStore, []⟩
        (api (sampleEnv 200 none (.ok none) (.ok ())) "get" "/me/player" none none
          ⟨staleStore, []⟩).2
        = [Event.apiRequest
            { method := "get", url := "/me/player", bearer := "A", device_id := none
              context_uri := none }] ∧
      (api (sampleEnv 200 none (.ok none) (.ok ())) "get" "/me/player" none none
        ⟨staleStore, []⟩).2.store.token_expires_at = some 100 ∧
      ¬ ((sampleEnv 200 none (.ok none) (.ok ())).dateNow 0 < 100) :=
  ⟨rfl, rfl, by decide⟩

/-- C7 (amended): whenever `api` attempts the request, the bearer it carries
is the non-empty `access_token` of the record at that moment, and either no
refresh was made, the record is untouched and it has no refresh token or the
token passed the check `now < token_expires_at`; or the bearer is the token
returned by the one refresh request of this call, recorded with
`token_expires_at` = clock reading after the refresh + (expires_in - 60) * 1000
whenever that sum is computed exactly (the clock reading, `expires_in` and
every intermediate result are integers of magnitude at most 2^53), and with no
expiry when the answer carries no `expires_in`.
When the record has neither an access token nor a refresh token, and whenever
no access token is left after the refresh step, `api` fails with
"Not authenticated with Spotify" and attempts no request.  A record with an
access token but no refresh token sends the request with that token,
unchecked. -/
theorem api_bearer (env : Env) (m u : String) (d c : Option String) (w : World) :
    (∀ conf, Event.apiRequest conf ∈ issued w (api env m u d c w).2 →
      (api env m u d c w).2.store.access_token = some conf.bearer ∧ conf.bearer ≠ "" ∧
      ((tokenRequests (issued w (api env m u d c w).2) = [] ∧
          (api env m u d c w).2.store = w.store ∧
          (truthyVal w.store.refresh_token = none ∨
            env.dateNow w.log.length < w.store.token_expires_at.getD 0)) ∨
        ∃ rt data, truthyVal w.store.refresh_token = some rt ∧
          tokenRequests (issued w (api env m u d c w).2) = [rt] ∧
          env.tokenEndpoint w.log.length rt = .ok data ∧
          data.access_token = some conf.bearer ∧
          (∀ s, data.expires_in = some s →
            exactExpiry (env.dateNow (w.log.length + 1)) s = true →
            (api env m u d c w).2.store.token_expires_at =
              some (env.dateNow (w.log.length + 1) + (s - 60) * 1000)) ∧
          (data.expires_in = none →
            (api env m u d c w).2.store.token_expires_at = none))) ∧
    (truthyVal w.store.access_token = none → truthyVal w.store.refresh_token = none →
      api env m u d c w = (.error "Not authenticated with Spotify", w)) ∧
    (∀ w1, refreshAccessTokenIfNeeded env w = (.ok (), w1) →
      truthyVal w1.store.access_token = none →
      api env m u d c w = (.error "Not authenticated with Spotify", w1) ∧
        apiRequests (issued w w1) = []) ∧
    (∀ tok, truthyVal w.store.refresh_token = none → truthyVal w.store.access_token = some tok →
      api env m u d c w =
        (env.axios w.log.length
            { method := m, url := u, bearer := tok, device_id := truthyVal d, context_uri := c },
          w.emit (Event.apiRequest
            { method := m, url := u, bearer := tok, device_id := truthyVal d,
              context_uri := c }))) := by
  refine ⟨?_, ?_, ?_, ?_⟩
  · intro conf hmem
    by_cases hskip : truthyVal w.store.refresh_token = none ∨
        (truthyStr w.store.access_token = true ∧
          env.dateNow w.log.length < w.store.token_expires_at.getD 0)
    · rw [api_without_refresh env m u d c w hskip] at hmem ⊢
      cases ha : truthyVal w.store.access_token with
      | none => simp [ha, issued] at hmem
      | some tok =>
        obtain ⟨h1, h2⟩ := truthyVal_some ha
        simp only [ha, issued, World.emit, List.drop_left, List.mem_singleton,
          Event.apiRequest.injEq] at hmem
        subst hmem
        refine ⟨h1, h2, .inl ⟨?_, rfl, ?_⟩⟩
        · simp [issued, World.emit, tokenRequests]
        · rcases hskip with h | h
          · exact .inl h
          · exact .inr h.2
    · cases hr : truthyVal w.store.refresh_token with
      | none => exact absurd (.inl hr) hskip
      | some rt =>
        have hrun : truthyStr w.store.access_token = false ∨
            w.store.token_expires_at.getD 0 ≤ env.dateNow w.log.length := by
          by_contra hcon
          push_neg at hcon
          exact hskip (.inr ⟨by simpa using hcon.1, hcon.2⟩)
        rcases api_refreshed env m u d c w rt hr hrun with ⟨e, hapi⟩ | ⟨data, s2, hd, hs2, hcase⟩
        · rw [hapi] at hmem
          simp [issued, World.emit] at hmem
        · rcases hcase with ⟨e, hapi⟩ | ⟨tok, ha, hapi⟩
          · rw [hapi] at hmem
            simp [issued] at hmem
          · obtain ⟨h1, h2⟩ := truthyVal_some ha
            rw [hapi] at hmem ⊢
            simp only [issued, List.drop_left, List.mem_cons, List.mem_singleton,
              Event.apiRequest.injEq, reduceCtorEq, false_or, List.not_mem_nil, or_false] at hmem
            subst hmem
            have hexp : s2.token_expires_at =
                data.expires_in.map fun s => env.dateNow (w.log.length + 1) + (s - 60) * 1000 := by
              rw [hs2]; rfl
            refine ⟨?_, h2, .inr ⟨rt, data, rfl, ?_, hd, h1, ?_, ?_⟩⟩
            · rw [hs2]; exact h1
            · simp [issued, tokenRequests]
            · intro s hs _
              rw [hexp, hs]; rfl
            · intro hs
              rw [hexp, hs]; rfl
  · intro ha hr
    rw [api_without_refresh env m u d c w (.inl hr), ha]
  · intro w1 hw1 ha
    refine ⟨by unfold api; rw [hw1]; simp only [ha], ?_⟩
    have hf := refresh_requests env w
    rw [hw1] at hf
    exact hf
  · intro tok hr ha
    rw [api_without_refresh env m u d c w (.inl hr), ha]

/-- Witness of C7 (amended): an expired token with a refresh token at hand;
the request carries the refreshed token `T2`, whose lifetime of 3600 s read at
time 200 is recorded as 200 + 3540 * 1000; and a record without tokens. -/
theorem api_bearer_witness :
    (api (sampleEnv 200 none (.ok none) (.ok ())) "get" "/me/player" none none
        ⟨expiredStore, []⟩).2.store.access_token = some "T2" ∧
      exactExpiry 200 3600 = true ∧
      exactExpiry 200 9007199254740991 = false ∧
      (api (sampleEnv 200 none (.ok none) (.ok ())) "get" "/me/player" none none
        ⟨expiredStore, []⟩).2.store.token_expires_at = some 3540200 ∧
      (api (sampleEnv 200 none (.ok none) (.ok ())) "get" "/me/player" none none
        ⟨unauthenticatedStore, []⟩)
        = (.error "Not authenticated with Spotify", ⟨unauthenticatedStore, []⟩) := by
  have h := (api_bearer (sampleEnv 200 none (.ok none) (.ok ())) "get" "/me/player" none none
    ⟨expiredStore, []⟩).1
    { method := "get", url := "/me/player", bearer := "T2", device_id := none
      context_uri := none } (by decide)
  refine ⟨h.1, by decide, by decide, ?_,
    (api_bearer (sampleEnv 200 none (.ok none) (.ok ())) "get" "/me/player" none none
      ⟨unauthenticatedStore, []⟩).2.1 rfl rfl⟩
  rcases h.2.2 with ⟨hno, -⟩ | ⟨rt, data, -, -, hd, -, hs, -⟩
  · exact absurd hno (by decide)
  · have hdata : (Except.ok { access_token := some "T2", expires_in := some 3600 } :
        Except String TokenData) = .ok data := hd
    cases hdata
    exact hs 3600 rfl (by decide)

/-! ## The `/kick` handler -/

/-- C8: when `selected_playlist_id` or `preferred_device_id` is absent or
empty, the `/kick` handler answers 400, issues no event at all (no
startPlayback invocation, no request to the Web API) and leaves the record
unchanged; when both are present it issues exactly one startPlayback
invocation, with `context_uri = "spotify:playlist:" + selected_playlist_id`
and `device_id = preferred_device_id`, and does not answer 400, whatever
`bot_enabled` and `user_interrupt` are. -/
theorem kick_requires_selection (env : Env) (w : World) :
    (w.store.selected_playlist_id = none ∨ w.store.selected_playlist_id = some "" ∨
        w.store.preferred_device_id = none ∨ w.store.preferred_device_id = some "" →
      (kick env w).1.status = 400 ∧ (kick env w).2 = w ∧
        startCalls (issued w (kick env w).2) = [] ∧
        apiRequests (issued w (kick env w).2) = []) ∧
    (∀ pl dev, w.store.selected_playlist_id = some pl → pl ≠ "" →
      w.store.preferred_device_id = some dev → dev ≠ "" →
      startCalls (issued w (kick env w).2) = [("spotify:playlist:" ++ pl, dev)] ∧
        (kick env w).1.status ≠ 400) := by
  constructor
  · intro h
    have hk : kick env w
        = ({ status := 400, error := some "Select a playlist and device first." }, w) := by
      unfold kick
      rcases h with h | h | h | h
      · simp [h, truthyVal]
      · simp [h, truthyVal]
      · split
        · rename_i hd
          simp [h, truthyVal] at hd
        · rfl
      · split
        · rename_i hd
          simp [h, truthyVal] at hd
        · rfl
    rw [hk]
    simp [issued, startCalls, apiRequests]
  · intro pl dev hp hpl hd hdev
    have h1 : truthyVal w.store.selected_playlist_id = some pl := by simp [truthyVal, hp, hpl]
    have h2 : truthyVal w.store.preferred_device_id = some dev := by simp [truthyVal, hd, hdev]
    obtain ⟨-, hc⟩ := api_frame env "put" "/me/player/play" (some dev)
      (some ("spotify:playlist:" ++ pl))
      (w.emit (Event.startPlayback ("spotify:playlist:" ++ pl) dev))
    have hk := (Calls.single w (Event.startPlayback ("spotify:playlist:" ++ pl) dev)).append hc
    change Calls w (startPlayback env ("spotify:playlist:" ++ pl) dev w).2 _ at hk
    unfold kick
    simp only [h1, h2]
    split <;> rename_i heq <;> rw [heq] at hk
    · exact ⟨hk.startCalls_issued, by simp⟩
    · exact ⟨hk.startCalls_issued, by simp⟩

/-- Witness of C8: scenario D (no playlist chosen), and a kick with both
selections while the bot is off. -/
theorem kick_requires_selection_witness :
    (kick (sampleEnv 0 none (.ok none) (.ok ()))
        ⟨{ sampleStore with selected_playlist_id := none }, []⟩).1.status = 400 ∧
      startCalls (issued ⟨disabledStore, []⟩
        (kick (sampleEnv 0 none (.ok none) (.ok ())) ⟨disabledStore, []⟩).2)
        = [("spotify:playlist:" ++ "P1", "D1")] :=
  ⟨((kick_requires_selection (sampleEnv 0 none (.ok none) (.ok ()))
      ⟨{ sampleStore with selected_playlist_id := none }, []⟩).1 (.inl rfl)).1,
    ((kick_requires_selection (sampleEnv 0 none (.ok none) (.ok ()))
      ⟨disabledStore, []⟩).2 "P1" "D1" rfl (by decide) rfl (by decide)).1⟩

end SpotifyBot
